import Mathlib

/-
Verification development for the RAOP sink module
(src/modules/raop/raop-sink.c). The definitions below are a shallow
embedding of the data model and operations of that file: machine
integers become Nat (with explicit 64-bit wraparound where the C code
relies on unsigned arithmetic), external collaborators (the RAOP
streaming client, the smoother, modargs string parsing) become explicit
parameters or lists of emitted actions, and each message / transition
handler becomes a pure function from its inputs and the relevant part
of `struct userdata` to the updated state plus the list of side effects
it performs, in order.
-/

namespace RaopSink

/-- Time conversion constant, microseconds per second (PA_USEC_PER_SEC). -/
def PA_USEC_PER_SEC : Nat := 1000000

/-- Time conversion constant, microseconds per millisecond (PA_USEC_PER_MSEC). -/
def PA_USEC_PER_MSEC : Nat := 1000

/-- Watchdog window: maximal tolerated time without UDP timing packets,
from `#define UDP_TIMING_PACKET_LOSS_MAX (30 * PA_USEC_PER_SEC)`. -/
def UDP_TIMING_PACKET_LOSS_MAX : Nat := 30 * PA_USEC_PER_SEC

/-- Number of watchdog escalation cycles,
from `#define UDP_TIMING_PACKET_DISCONNECT_CYCLE 3`. -/
def UDP_TIMING_PACKET_DISCONNECT_CYCLE : Nat := 3

/-- errno value EINTR (signal interruption), Linux value 4. -/
def EINTR : Nat := 4

/-- errno value EAGAIN (operation would block), Linux value 11. -/
def EAGAIN : Nat := 11

/-- errno value ECONNRESET (connection reset by peer), Linux value 104; used
here as a representative of a send failure that is neither EINTR nor EAGAIN. -/
def ECONNRESET : Nat := 104

/-- Unsigned 64-bit subtraction with wraparound, the semantics of
`pa_usec_t` (uint64_t) subtraction in C. -/
def usub64 (a b : Nat) : Nat := (a + 2 ^ 64 - b) % 2 ^ 64

/-- The pa_sink states relevant to this module (pa_sink_state_t). -/
inductive SinkState where
  | running
  | idle
  | suspended
  | init
  | unlinked
  | invalidState
deriving DecidableEq, Repr

/- ===== C1: error dispatch of a failed non-blocking audio send ===== -/

/-- Outcome of the failure branch of the audio send in `thread_func`. -/
inductive SendErrorAction where
  /-- post PA_SINK_MESSAGE_DISCONNECT_REQUEST on the outbound queue and
  continue the loop -/
  | disconnectRequest
  /-- `goto fail` (unload request, then drain messages until shutdown) -/
  | fatal
  /-- set `pollfd->events = POLLOUT` and keep the chunk for a retry -/
  | armPollout
deriving DecidableEq, Repr

/-- Embedding of the failure dispatch in `thread_func`
(raop-sink.c lines 588-612), exactly as the C source branches:
`if (errno == EINTR) {...} else if (errno != EAGAIN && !u->oob) {arm
POLLOUT} else {...}`. -/
def sendErrorDispatch (errno : Nat) (oob autoreconnect : Bool) : SendErrorAction :=
  if errno == EINTR then
    if autoreconnect then SendErrorAction.disconnectRequest else SendErrorAction.fatal
  else if errno != EAGAIN && !oob then
    SendErrorAction.armPollout
  else
    if autoreconnect then SendErrorAction.disconnectRequest else SendErrorAction.fatal

/-- The same dispatch as the specification states it: EINTR is
retryable via disconnect (or fatal without auto-reconnect); EAGAIN on the
reliable (non-out-of-band, TCP) transport arms POLLOUT; every other
failure requests a disconnect (or is fatal without auto-reconnect). -/
def sendErrorDispatchSpec (errno : Nat) (oob autoreconnect : Bool) : SendErrorAction :=
  if errno == EINTR then
    if autoreconnect then SendErrorAction.disconnectRequest else SendErrorAction.fatal
  else if errno == EAGAIN && !oob then
    SendErrorAction.armPollout
  else
    if autoreconnect then SendErrorAction.disconnectRequest else SendErrorAction.fatal

/- ===== C2: UDP timing packet watchdog ===== -/

/-- Watchdog bookkeeping of `thread_func`: the local variables
`last_timing` (rtclock time of the last received timing packet, 0 when
disarmed) and `check_timing_count` (current escalation level, starts
at 1). -/
structure WatchdogState where
  lastTiming : Nat
  checkTimingCount : Nat
deriving DecidableEq, Repr

/-- Result of one watchdog check: updated bookkeeping, whether a
warning was logged, and whether PA_SINK_MESSAGE_DISCONNECT_REQUEST
was posted. -/
structure WatchdogOut where
  state : WatchdogState
  warned : Bool
  disconnectPosted : Bool
deriving DecidableEq, Repr

/-- Embedding of the timing watchdog block of `thread_func`
(raop-sink.c lines 527-558), guarded by
`if (u->oob && u->autoreconnect && on_timeout)`. -/
def watchdogCheck (oob autoreconnect onTimeout canstream alive : Bool)
    (now : Nat) (s : WatchdogState) : WatchdogOut :=
  if oob && autoreconnect && onTimeout then
    if !canstream then
      ⟨⟨0, s.checkTimingCount⟩, false, false⟩
    else if s.lastTiming != 0 then
      let since := usub64 now s.lastTiming
      if since > UDP_TIMING_PACKET_LOSS_MAX / UDP_TIMING_PACKET_DISCONNECT_CYCLE * s.checkTimingCount then
        if s.checkTimingCount < UDP_TIMING_PACKET_DISCONNECT_CYCLE then
          ⟨⟨s.lastTiming, s.checkTimingCount + 1⟩, true, false⟩
        else
          if alive then ⟨⟨0, 1⟩, true, true⟩ else ⟨⟨0, 1⟩, false, false⟩
      else ⟨s, false, false⟩
    else ⟨s, false, false⟩
  else ⟨s, false, false⟩

/- ===== C3: entry into the Recording connection state ===== -/

/-- Abstract state of the position smoother: the recorded history of
(time, position) observations, most recent first. Modelled from the
spec: the smoother implementation (time-smoother_2.c / time-smoother.c)
is outside src/; the spec requires only that a reset discards all
history and that an observation appends a sample. -/
structure Smoother where
  history : List (Nat × Int)
deriving DecidableEq, Repr

/-- Modelled from the spec: `pa_smoother_2_reset` discards all prior
history (the smoother implementation is outside src/). -/
def smootherReset (_s : Smoother) : Smoother := ⟨[]⟩

/-- Modelled from the spec: `pa_smoother_2_put` records one (time,
position) observation (the smoother implementation is outside src/). -/
def smootherPut (now : Nat) (position : Int) (s : Smoother) : Smoother :=
  ⟨(now, position) :: s.history⟩

/-- The fields of `struct userdata` mutated by the PA_RAOP_RECORDING
branch of `sink_process_msg`, together with the smoother. -/
structure UState where
  writeCount : Nat
  start : Nat
  first : Bool
  smoother : Smoother
deriving DecidableEq, Repr

/-- Side effects of the PA_RAOP_RECORDING branch. -/
inductive RecAction where
  | setTimerAbsolute (t : Nat)
  | disableTimer
  | flush
  | setVolume
deriving DecidableEq, Repr

/-- Embedding of the PA_RAOP_RECORDING branch of `sink_process_msg`
(raop-sink.c lines 223-243): zero the write count, restart the time
origin, set the first-iteration flag, arm the absolute timer; then, when
the sink is suspended, disable the timer and flush, otherwise push the
current volume. -/
def handleRecording (threadState : SinkState) (now : Nat) (u : UState) :
    UState × List RecAction :=
  let u2 : UState := { u with writeCount := 0, start := now, first := true }
  if threadState = SinkState.suspended then
    (u2, [RecAction.setTimerAbsolute now, RecAction.disableTimer, RecAction.flush])
  else
    (u2, [RecAction.setTimerAbsolute now, RecAction.setVolume])

/-- Embedding of the PA_SINK_RUNNING branch of
`sink_set_state_in_io_thread_cb` (raop-sink.c lines 328-358), restricted
to the fields of `UState`: the smoother is reset; with autonull the
cursor and time origin restart as well. -/
def handleRunningTransition (autonull : Bool) (now : Nat) (u : UState) : UState :=
  let u2 : UState := { u with smoother := smootherReset u.smoother }
  if autonull then
    { u2 with start := now, writeCount := 0, first := true }
  else
    u2

/- ===== C4: audio cursor accounting ===== -/

/-- The pa_memchunk fields the send path manipulates. -/
structure Chunk where
  index : Nat
  length : Nat
deriving DecidableEq, Repr

/-- Embedding of the success branch of the audio send in `thread_func`
(raop-sink.c lines 585-619) as far as the cursor and the chunk are
concerned. `accepted` is the number of bytes the network layer accepted,
i.e. the advance of `u->memchunk.index` performed by
`pa_raop_client_send_audio_packet`. With `sendstream` (that is, unless
autonull is on while the client cannot stream) the cursor advances by
the index advance; otherwise the whole remaining chunk is counted and
discarded without sending. -/
def advanceCursor (autonull canstream : Bool) (accepted : Nat)
    (writeCount : Nat) (c : Chunk) : Nat × Chunk :=
  let sendstream := !autonull || (autonull && canstream)
  if sendstream then
    (writeCount + ((c.index + accepted) - c.index),
     { index := c.index + accepted, length := c.length - accepted })
  else
    (writeCount + c.length, { c with length := 0 })

/-- One successful render-and-send iteration: the mode flags in force,
the bytes the network layer accepted, and the chunk being sent. -/
structure SendIter where
  autonull : Bool
  canstream : Bool
  accepted : Nat
  chunk : Chunk
deriving DecidableEq, Repr

/-- Cursor value after a sequence of successful iterations, folding
`advanceCursor` from left to right. -/
def runSends (writeCount : Nat) : List SendIter → Nat
  | [] => writeCount
  | it :: rest =>
      runSends (advanceCursor it.autonull it.canstream it.accepted writeCount it.chunk).1 rest

/-- Bytes an iteration accounts for: the accepted bytes when the chunk
is really sent, the full remaining chunk length in autonull-discard
mode. -/
def iterBytes (it : SendIter) : Nat :=
  if !it.autonull || (it.autonull && it.canstream) then it.accepted else it.chunk.length

/- ===== C5: latency query ===== -/

/-- Embedding of `sink_get_latency` (raop-sink.c lines 135-157,
USE_SMOOTHER_2 path): the smoother delay estimate at the current time
and cursor position, plus the configured latency converted from
milliseconds to microseconds. The smoother estimate
(`pa_smoother_2_get_delay`, outside src/) is an explicit function
parameter. -/
def sink_get_latency (smootherDelay : Nat → Nat → Int)
    (now writeCount : Nat) (latency : Nat) : Int :=
  smootherDelay now writeCount + (latency : Int) * (PA_USEC_PER_MSEC : Int)

/-- Embedding of the PA_SINK_MESSAGE_GET_LATENCY branch of
`sink_process_msg` (raop-sink.c lines 179-188): `r = 0` unless
`u->autonull || pa_raop_client_can_stream(u->raop)`. -/
def handleGetLatency (autonull canstream : Bool) (smootherDelay : Nat → Nat → Int)
    (now writeCount : Nat) (latency : Nat) : Int :=
  if autonull || canstream then
    sink_get_latency smootherDelay now writeCount latency
  else
    0

/- ===== C6: entry into Disconnected / Invalid ===== -/

/-- Side effects of the PA_RAOP_DISCONNECTED / PA_RAOP_INVALID_STATE
branch of `sink_process_msg`. -/
inductive DiscAction where
  | closeFd (fd : Int)
  | freeRtpollItem
  | disableTimer
  | authenticate
  | unloadRequest
deriving DecidableEq, Repr

/-- The poll-handle release prologue (raop-sink.c lines 251-262): when an
rtpoll item is registered, every nonnegative descriptor of its pollfd
array is closed and the item is freed. The item is modelled as
`Option (List Int)`: `some fds` when registered with those descriptors. -/
def releaseActions (item : Option (List Int)) : List DiscAction :=
  match item with
  | none => []
  | some fds => (fds.filter (fun fd => 0 ≤ fd)).map DiscAction.closeFd ++ [DiscAction.freeRtpollItem]

/-- Result of the Disconnected/Invalid transition: the rtpoll item
afterwards, and the side effects in order. -/
structure DiscResult where
  rtpollItem : Option (List Int)
  actions : List DiscAction
deriving DecidableEq, Repr

/-- Embedding of the PA_RAOP_DISCONNECTED / PA_RAOP_INVALID_STATE branch
of `sink_process_msg` (raop-sink.c lines 245-282): release any poll
handles, then branch on the sink thread state and the auto-reconnect /
auto-null flags. -/
def handleDisconnected (threadState : SinkState) (autoreconnect autonull : Bool)
    (item : Option (List Int)) : DiscResult :=
  let rel := releaseActions item
  if threadState = SinkState.suspended then
    ⟨none, rel ++ [DiscAction.disableTimer]⟩
  else if autoreconnect then
    if threadState ≠ SinkState.idle then
      ⟨none, rel ++ (if !autonull then [DiscAction.disableTimer] else []) ++ [DiscAction.authenticate]⟩
    else
      ⟨none, rel⟩
  else
    if threadState ≠ SinkState.idle then
      ⟨none, rel ++ [DiscAction.unloadRequest]⟩
    else
      ⟨none, rel⟩

/- ===== C7: volume setter ===== -/

/-- `pa_cvolume_max`: the maximum over all channel volumes. -/
def pa_cvolume_max (channels : List Nat) : Nat := channels.foldl max 0

/-- Result of the volume setter: the sink's per-channel software volume
and the scalar pushed to the RAOP client (`none` if nothing was
pushed). -/
structure VolumeResult where
  softVolume : List Nat
  pushed : Option Nat
deriving DecidableEq, Repr

/-- Embedding of `sink_set_volume_cb` (raop-sink.c lines 372-408).
`adjust` stands for `pa_raop_client_adjust_volume` and `divide` for the
per-channel `pa_sw_volume_divide` used by `pa_sw_cvolume_divide` (both
outside src/). While muted nothing happens; otherwise the single
hardware volume is the adjusted maximum channel volume, the software
volume is the channel-wise quotient of the requested volume by the
hardware volume, and the adjusted scalar is pushed to the client. -/
def sink_set_volume (muted : Bool) (realVolume : List Nat)
    (adjust : Nat → Nat) (divide : Nat → Nat → Nat)
    (soft0 : List Nat) (pushed0 : Option Nat) : VolumeResult :=
  if muted then
    ⟨soft0, pushed0⟩
  else
    let v := pa_cvolume_max realVolume
    let vAdj := adjust v
    let hw := List.replicate realVolume.length vAdj
    ⟨List.zipWith divide realVolume hw, some vAdj⟩

/- ===== C8: poll-handle registration safety ===== -/

/-- RAOP connection states (pa_raop_state_t), with Disconnected and
Invalid merged since the code handles them identically. -/
inductive RaopState where
  | disconnected
  | authenticated
  | connected
  | recording
deriving DecidableEq, Repr

/-- Connection state-change events delivered to `sink_process_msg`. -/
inductive RaopTrans where
  | toAuthenticated
  | toConnected
  | toRecording
  | toDisconnected
deriving DecidableEq, Repr

/-- The part of `struct userdata` the registration safety argument
needs: the current connection state and whether `u->rtpoll_item` is
non-NULL. -/
structure PollConfig where
  state : RaopState
  itemRegistered : Bool
deriving DecidableEq, Repr

/-- Modelled from the spec: the Streaming Client (raop-client.c, outside
src/) raises its state events in protocol order — out of
Disconnected/Invalid it announces Authenticated, then Connected, then
Recording, and it may announce Disconnected/Invalid from any state. -/
def transAllowed : RaopState → RaopTrans → Bool
  | _, RaopTrans.toDisconnected => true
  | RaopState.disconnected, RaopTrans.toAuthenticated => true
  | RaopState.authenticated, RaopTrans.toConnected => true
  | RaopState.connected, RaopTrans.toRecording => true
  | _, _ => false

/-- Effect of each PA_SINK_MESSAGE_SET_RAOP_STATE branch of
`sink_process_msg` on `u->rtpoll_item`: the Connected branch registers
the client's poll handles (raop-sink.c line 218), the
Disconnected/Invalid branch frees them and nulls the item (lines
251-262), the other branches leave the item alone. -/
def applyTrans (c : PollConfig) : RaopTrans → PollConfig
  | RaopTrans.toAuthenticated => ⟨RaopState.authenticated, c.itemRegistered⟩
  | RaopTrans.toConnected => ⟨RaopState.connected, true⟩
  | RaopTrans.toRecording => ⟨RaopState.recording, c.itemRegistered⟩
  | RaopTrans.toDisconnected => ⟨RaopState.disconnected, false⟩

/-- Whether a sequence of state events respects the client's protocol
order from a given configuration. -/
def protocolPath : PollConfig → List RaopTrans → Bool
  | _, [] => true
  | c, t :: ts => transAllowed c.state t && protocolPath (applyTrans c t) ts

/-- Whether along a sequence of state events the precondition of the
Connected branch, `pa_assert(!u->rtpoll_item)` (raop-sink.c line 216),
holds at every Connected event. -/
def connectedAssertOk : PollConfig → List RaopTrans → Bool
  | _, [] => true
  | c, t :: ts =>
      (t != RaopTrans.toConnected || !c.itemRegistered) && connectedAssertOk (applyTrans c t) ts

/-- Initial configuration: `u->rtpoll_item = NULL` at construction
(raop-sink.c line 770) and no connection yet. -/
def initConfig : PollConfig := ⟨RaopState.disconnected, false⟩

/-- Invariant: the rtpoll item is registered only in the Connected or
Recording states. -/
def pollInv (c : PollConfig) : Bool :=
  !c.itemRegistered || (c.state == RaopState.connected || c.state == RaopState.recording)

/- ===== C9: construction ===== -/

/-- Transport protocols (pa_raop_protocol_t). -/
inductive Protocol where
  | tcp
  | udp
deriving DecidableEq, Repr

/-- Encryption modes (pa_raop_encryption_t). -/
inductive Encryption where
  | noEncryption
  | rsa
deriving DecidableEq, Repr

/-- Codecs (pa_raop_codec_t). -/
inductive Codec where
  | pcm
  | alac
deriving DecidableEq, Repr

/-- The module arguments `pa_raop_sink_new` consults, already split out
of the modargs table (`none` = argument absent). -/
structure ModArgs where
  server : Option String
  protocol : Option String
  encryption : Option String
  codec : Option String
  autoreconnect : Option Bool
  latency_msec : Option Nat
deriving DecidableEq, Repr

/-- Modelled from the spec: the default fixed latency
(RAOP_DEFAULT_LATENCY, defined in raop-sink.h which is outside src/). -/
def RAOP_DEFAULT_LATENCY : Nat := 250

/-- Protocol argument parsing of `pa_raop_sink_new`
(raop-sink.c lines 812-819). -/
def parseProtocol (s : String) : Option Protocol :=
  if s = "TCP" then some Protocol.tcp
  else if s = "UDP" then some Protocol.udp
  else none

/-- Encryption argument parsing of `pa_raop_sink_new`
(raop-sink.c lines 824-833); absent means none. -/
def parseEncryption : Option String → Option Encryption
  | none => some Encryption.noEncryption
  | some s =>
      if s = "none" then some Encryption.noEncryption
      else if s = "RSA" then some Encryption.rsa
      else none

/-- Codec argument parsing of `pa_raop_sink_new`
(raop-sink.c lines 835-844); absent means PCM. -/
def parseCodec : Option String → Option Codec
  | none => some Codec.pcm
  | some s =>
      if s = "PCM" then some Codec.pcm
      else if s = "ALAC" then some Codec.alac
      else none

/-- The configuration fields of `struct userdata` assembled by
`pa_raop_sink_new`. -/
structure SinkConfig where
  server : String
  protocol : Protocol
  encryption : Encryption
  codec : Codec
  autoreconnect : Bool
  autonull : Bool
  latency : Nat
deriving DecidableEq, Repr

/-- Embedding of the configuration part of `pa_raop_sink_new`
(raop-sink.c lines 731-844): server and protocol are mandatory,
autoreconnect defaults to false, and line 780 sets
`u->autonull = u->autoreconnect` unconditionally ("Linked for now,
potentially ready for additional parameter"). -/
def pa_raop_sink_new (ma : ModArgs) : Option SinkConfig :=
  match ma.server, ma.protocol with
  | some server, some protocolArg =>
      let autoreconnect := ma.autoreconnect.getD false
      let latency := ma.latency_msec.getD RAOP_DEFAULT_LATENCY
      match parseProtocol protocolArg, parseEncryption ma.encryption, parseCodec ma.codec with
      | some protocol, some encryption, some codec =>
          some { server := server, protocol := protocol, encryption := encryption,
                 codec := codec, autoreconnect := autoreconnect,
                 autonull := autoreconnect, latency := latency }
      | _, _, _ => none
  | _, _ => none

/- ===== C10: disconnect request handling ===== -/

/-- Operations the PA_SINK_MESSAGE_DISCONNECT_REQUEST handler performs
on the RAOP client. -/
inductive CtrlAction where
  | clientDisconnect
  | clientAuthenticate
deriving DecidableEq, Repr

/-- Embedding of the PA_SINK_MESSAGE_DISCONNECT_REQUEST branch of
`sink_process_msg` (raop-sink.c lines 168-177): only when the sink state
is PA_SINK_RUNNING does it disconnect the client and restart
authentication; otherwise it returns without doing anything. -/
def handleDisconnectRequest (sinkState : SinkState) : List CtrlAction :=
  if sinkState = SinkState.running then
    [CtrlAction.clientDisconnect, CtrlAction.clientAuthenticate]
  else
    []

/- ===================== Theorems ===================== -/

/-- Helper: one successful iteration advances the cursor by exactly the
bytes that iteration accounts for. -/
theorem advanceCursor_fst (it : SendIter) (wc : Nat) :
    (advanceCursor it.autonull it.canstream it.accepted wc it.chunk).1 = wc + iterBytes it := by
  simp only [advanceCursor, iterBytes]
  split <;> rename_i h <;> simp [h]

/-- Helper: 64-bit unsigned subtraction agrees with Nat subtraction in
the non-wrapping range. -/
theorem usub64_eq_sub (a b : Nat) (hb : b ≤ a) (ha : a < 2 ^ 64) :
    usub64 a b = a - b := by
  unfold usub64
  have h : (2 : Nat) ^ 64 = 18446744073709551616 := by norm_num
  rw [h] at ha ⊢
  omega

/-- Helper: dividing channel-wise by a constant hardware volume is the
map of the scalar division over the channels. -/
theorem zipWith_divide_replicate (divide : Nat → Nat → Nat) (v : Nat) :
    ∀ l : List Nat, List.zipWith divide l (List.replicate l.length v) =
      l.map (fun r => divide r v)
  | [] => rfl
  | x :: xs => by
      simp [List.replicate, zipWith_divide_replicate divide v xs]

/-- Claim C1: the claim says a send failing with EAGAIN on the reliable
(TCP, non-out-of-band) transport arms POLLOUT, and any other failure
requests a disconnect (auto-reconnect) or is fatal. The code inverts the
EAGAIN test: at errno = EAGAIN on TCP it falls into the generic-failure
branch (fatal without auto-reconnect), while a genuine failure such as
ECONNRESET on TCP is treated as buffer-full and arms POLLOUT, contrary
to the branch's own "Buffer is full, wait for POLLOUT" comment. -/
theorem c1_send_error_dispatch_code_bug :
    sendErrorDispatch EAGAIN false false = SendErrorAction.fatal ∧
    sendErrorDispatchSpec EAGAIN false false = SendErrorAction.armPollout ∧
    sendErrorDispatch ECONNRESET false false = SendErrorAction.armPollout ∧
    sendErrorDispatchSpec ECONNRESET false false = SendErrorAction.fatal ∧
    sendErrorDispatch EINTR false true = SendErrorAction.disconnectRequest ∧
    sendErrorDispatch EINTR false false = SendErrorAction.fatal := by
  decide

/-- Claim C2: once the watchdog is armed (a timing packet was received
at time t0 ≠ 0) and the elapsed time exceeds
k·(UDP_TIMING_PACKET_LOSS_MAX / UDP_TIMING_PACKET_DISCONNECT_CYCLE) at
warning level k, then below the final cycle a warning is logged and the
level increments (timestamp kept, no disconnect), and at the final cycle
the bookkeeping resets to (0, 1) and a disconnect request is posted if
and only if the connection is alive. -/
theorem c2_watchdog_escalation (now t0 k : Nat) (alive : Bool)
    (h0 : t0 ≠ 0) (hle : t0 ≤ now) (hlt : now < 2 ^ 64)
    (hexc : UDP_TIMING_PACKET_LOSS_MAX / UDP_TIMING_PACKET_DISCONNECT_CYCLE * k < now - t0) :
    (k < UDP_TIMING_PACKET_DISCONNECT_CYCLE →
      watchdogCheck true true true true alive now ⟨t0, k⟩ =
        ⟨⟨t0, k + 1⟩, true, false⟩) ∧
    (¬ k < UDP_TIMING_PACKET_DISCONNECT_CYCLE →
      (watchdogCheck true true true true alive now ⟨t0, k⟩).state = ⟨0, 1⟩ ∧
      ((watchdogCheck true true true true alive now ⟨t0, k⟩).disconnectPosted = true ↔
        alive = true)) := by
  have hs : usub64 now t0 = now - t0 := usub64_eq_sub now t0 hle hlt
  constructor
  · intro hk
    simp [watchdogCheck, hs, h0, hexc, hk]
  · intro hk
    cases alive <;> simp [watchdogCheck, hs, h0, hexc, hk]

/-- Claim C2 witness: concrete escalation step at level 1 with the
window exceeded by one microsecond. -/
theorem c2_watchdog_escalation_witness :
    watchdogCheck true true true true true 10000002 ⟨1, 1⟩ =
      ⟨⟨1, 2⟩, true, false⟩ :=
  (c2_watchdog_escalation 10000002 1 1 true (by decide) (by decide)
    (by decide) (by decide)).1 (by decide)

/-- Claim C3 counterexample: entering Recording with a nonempty smoother
history leaves that history in place — the Recording transition does not
discard prior Position Smoother observations (there is no smoother reset
in the PA_RAOP_RECORDING branch, raop-sink.c lines 223-243). -/
theorem c3_recording_keeps_history_counterexample :
    (handleRecording SinkState.running 1000 ⟨7, 3, false, ⟨[(5, 100)]⟩⟩).1.smoother ≠
      smootherReset ⟨[(5, 100)]⟩ := by
  decide

/-- Claim C3 amended: every entry into Recording resets the audio cursor
(write_count) to zero, resets the stream start time to the current time
and sets the first-iteration flag, but it leaves the Position Smoother
history exactly as it was; the smoother is instead reset on the
device-Running transition. -/
theorem c3_recording_resets_cursor_not_smoother (st : SinkState) (now : Nat) (u : UState) :
    (handleRecording st now u).1.writeCount = 0 ∧
    (handleRecording st now u).1.start = now ∧
    (handleRecording st now u).1.first = true ∧
    (handleRecording st now u).1.smoother = u.smoother ∧
    (handleRunningTransition true now u).smoother = smootherReset u.smoother := by
  unfold handleRecording handleRunningTransition
  split <;> simp

/-- Claim C4: after any sequence of successful render-and-send
iterations the audio cursor equals its initial value plus the sum, over
the iterations, of the bytes accepted by the network layer (or the full
remaining chunk length for autonull-while-unstreamable iterations), so
bytes are never double-counted; in particular the cursor never
decreases. -/
theorem c4_cursor_accounting (wc : Nat) (its : List SendIter) :
    runSends wc its = wc + (its.map iterBytes).sum ∧ wc ≤ runSends wc its := by
  induction its generalizing wc with
  | nil => simp [runSends]
  | cons it rest ih =>
    have hstep := advanceCursor_fst it wc
    have hr := ih (advanceCursor it.autonull it.canstream it.accepted wc it.chunk).1
    constructor
    · rw [runSends, hr.1, hstep]
      simp
      omega
    · rw [runSends]
      calc wc ≤ wc + iterBytes it := Nat.le_add_right _ _
        _ = (advanceCursor it.autonull it.canstream it.accepted wc it.chunk).1 := hstep.symm
        _ ≤ _ := hr.2

/-- Claim C5: the latency query answers 0 when the client cannot stream
and autonull is off; otherwise it answers the smoother's delay estimate
at the current time and cursor position plus the configured latency
converted from milliseconds to microseconds. -/
theorem c5_latency_query (autonull canstream : Bool) (f : Nat → Nat → Int)
    (now wc lat : Nat) :
    (autonull = false → canstream = false →
      handleGetLatency autonull canstream f now wc lat = 0) ∧
    (autonull = true ∨ canstream = true →
      handleGetLatency autonull canstream f now wc lat = f now wc + (lat : Int) * 1000) := by
  constructor
  · intro ha hc
    simp [handleGetLatency, ha, hc]
  · intro h
    have hor : (autonull || canstream) = true := by
      rcases h with h | h <;> simp [h]
    simp [handleGetLatency, hor, sink_get_latency, PA_USEC_PER_MSEC]

/-- Claim C5 witness: with a concrete smoother estimate of 5 µs and a
configured latency of 200 ms the query answers 200005 µs while
streamable, and 0 while unstreamable without autonull. -/
theorem c5_latency_query_witness :
    handleGetLatency false false (fun a b => (a : Int) + (b : Int)) 2 3 200 = 0 ∧
    handleGetLatency false true (fun a b => (a : Int) + (b : Int)) 2 3 200 = 200005 := by
  constructor
  · exact (c5_latency_query false false (fun a b => (a : Int) + (b : Int)) 2 3 200).1 rfl rfl
  · have h := (c5_latency_query false true (fun a b => (a : Int) + (b : Int)) 2 3 200).2 (Or.inr rfl)
    rw [h]
    decide

/-- Claim C10: the disconnect-request message disconnects the client and
restarts authentication exactly when the sink state is Running; in every
other sink state the handler performs no client operation at all. -/
theorem c10_disconnect_request_only_when_running (st : SinkState) :
    (st = SinkState.running →
      handleDisconnectRequest st = [CtrlAction.clientDisconnect, CtrlAction.clientAuthenticate]) ∧
    (st ≠ SinkState.running → handleDisconnectRequest st = []) := by
  constructor
  · intro h
    simp [handleDisconnectRequest, h]
  · intro h
    simp [handleDisconnectRequest, h]

/-- Claim C10 witness: concrete evaluations in the Running and Idle sink
states. -/
theorem c10_disconnect_request_only_when_running_witness :
    handleDisconnectRequest SinkState.running =
      [CtrlAction.clientDisconnect, CtrlAction.clientAuthenticate] ∧
    handleDisconnectRequest SinkState.idle = [] :=
  ⟨(c10_disconnect_request_only_when_running SinkState.running).1 rfl,
   (c10_disconnect_request_only_when_running SinkState.idle).2 (by decide)⟩

/-- Claim C6: on every transition to Disconnected or Invalid the poll
handles are closed and released first and the rtpoll item is nulled;
then, when the sink is suspended, only the data timer is disabled; when
auto-reconnect is on and the sink is neither suspended nor idle, the
timer is disabled (unless auto-null) and authentication restarts; when
auto-reconnect is off and the sink is neither suspended nor idle, a
module unload is requested. -/
theorem c6_disconnected_transition (st : SinkState) (ar an : Bool)
    (item : Option (List Int)) :
    (handleDisconnected st ar an item).rtpollItem = none ∧
    (st = SinkState.suspended →
      (handleDisconnected st ar an item).actions =
        releaseActions item ++ [DiscAction.disableTimer]) ∧
    (st ≠ SinkState.suspended → st ≠ SinkState.idle → ar = true →
      (handleDisconnected st ar an item).actions =
        releaseActions item ++ (if an then [] else [DiscAction.disableTimer]) ++
          [DiscAction.authenticate]) ∧
    (st ≠ SinkState.suspended → st ≠ SinkState.idle → ar = false →
      (handleDisconnected st ar an item).actions =
        releaseActions item ++ [DiscAction.unloadRequest]) := by
  cases st <;> cases ar <;> cases an <;> simp [handleDisconnected]

/-- Claim C6 witness: concrete Disconnected transition in the Running
state with auto-reconnect on, auto-null off and two open descriptors
(plus one already-invalid descriptor that is not closed). -/
theorem c6_disconnected_transition_witness :
    (handleDisconnected SinkState.running true false (some [3, -1, 5])).actions =
      [DiscAction.closeFd 3, DiscAction.closeFd 5, DiscAction.freeRtpollItem,
       DiscAction.disableTimer, DiscAction.authenticate] := by
  have h := (c6_disconnected_transition SinkState.running true false (some [3, -1, 5])).2.2.1
    (by decide) (by decide) rfl
  rw [h]
  decide

/-- Claim C7: the volume setter is a no-op while muted; otherwise it
pushes to the RAOP client the volume-curve adjustment of the maximum
channel volume and sets the software volume to the channel-wise quotient
of the requested volume by that single hardware volume. -/
theorem c7_set_volume (muted : Bool) (rv soft0 : List Nat) (adjust : Nat → Nat)
    (divide : Nat → Nat → Nat) (p0 : Option Nat) :
    (muted = true → sink_set_volume muted rv adjust divide soft0 p0 = ⟨soft0, p0⟩) ∧
    (muted = false →
      (sink_set_volume muted rv adjust divide soft0 p0).pushed =
        some (adjust (pa_cvolume_max rv)) ∧
      (sink_set_volume muted rv adjust divide soft0 p0).softVolume =
        rv.map (fun r => divide r (adjust (pa_cvolume_max rv)))) := by
  constructor
  · intro h
    simp [sink_set_volume, h]
  · intro h
    simp [sink_set_volume, h, zipWith_divide_replicate]

/-- Claim C7 witness: while muted nothing changes; unmuted with channel
volumes [10, 20], a +1 volume curve and integer-ratio software division,
21 is pushed and the software volume is the per-channel quotient. -/
theorem c7_set_volume_witness :
    sink_set_volume true [10, 20] (fun v => v + 1) (fun a b => a * 100 / b) [7] (some 9) =
      ⟨[7], some 9⟩ ∧
    (sink_set_volume false [10, 20] (fun v => v + 1) (fun a b => a * 100 / b) [7] (some 9)).pushed =
      some 21 ∧
    (sink_set_volume false [10, 20] (fun v => v + 1) (fun a b => a * 100 / b) [7] (some 9)).softVolume =
      [47, 95] := by
  refine ⟨?_, ?_, ?_⟩
  · exact (c7_set_volume true [10, 20] [7] (fun v => v + 1) (fun a b => a * 100 / b) (some 9)).1 rfl
  · have h := ((c7_set_volume false [10, 20] [7] (fun v => v + 1) (fun a b => a * 100 / b) (some 9)).2 rfl).1
    rw [h]
    decide
  · have h := ((c7_set_volume false [10, 20] [7] (fun v => v + 1) (fun a b => a * 100 / b) (some 9)).2 rfl).2
    rw [h]
    decide

/-- Helper for C8: a protocol-allowed event preserves the registration
invariant and satisfies the Connected precondition. -/
theorem pollInv_step (s : RaopState) (reg : Bool) (t : RaopTrans)
    (hinv : pollInv ⟨s, reg⟩ = true) (hall : transAllowed s t = true) :
    ((t != RaopTrans.toConnected || !reg) = true) ∧
    pollInv (applyTrans ⟨s, reg⟩ t) = true := by
  cases t <;> cases s <;> cases reg <;> simp_all [pollInv, transAllowed, applyTrans]

/-- Helper for C8: along any protocol-allowed event sequence from an
invariant-satisfying configuration, every Connected event finds the
rtpoll item unregistered. -/
theorem connectedAssertOk_of_protocolPath : ∀ (ts : List RaopTrans) (c : PollConfig),
    pollInv c = true → protocolPath c ts = true → connectedAssertOk c ts = true := by
  intro ts
  induction ts with
  | nil =>
    intro c _ _
    rfl
  | cons t ts ih =>
    intro c hinv hp
    obtain ⟨s, reg⟩ := c
    rw [protocolPath, Bool.and_eq_true] at hp
    obtain ⟨hall, hrest⟩ := hp
    have hstep := pollInv_step s reg t hinv hall
    rw [connectedAssertOk, Bool.and_eq_true]
    exact ⟨hstep.1, ih _ hstep.2 hrest⟩

/-- Claim C8: in every protocol-allowed sequence of connection state
events starting from the freshly constructed sink (no item registered,
disconnected), the `pa_assert(!u->rtpoll_item)` precondition of the
Connected branch holds at every Connected event, because every
Disconnected/Invalid transition frees the handles and nulls the item
before any reconnect action. -/
theorem c8_connected_assert_safe (ts : List RaopTrans)
    (hp : protocolPath initConfig ts = true) :
    connectedAssertOk initConfig ts = true :=
  connectedAssertOk_of_protocolPath ts initConfig rfl hp

/-- Claim C8 witness: a full connect cycle followed by a disconnect and
a reconnect up to the second Connected event. -/
theorem c8_connected_assert_safe_witness :
    connectedAssertOk initConfig
      [RaopTrans.toAuthenticated, RaopTrans.toConnected, RaopTrans.toRecording,
       RaopTrans.toDisconnected, RaopTrans.toAuthenticated, RaopTrans.toConnected] = true :=
  c8_connected_assert_safe
    [RaopTrans.toAuthenticated, RaopTrans.toConnected, RaopTrans.toRecording,
     RaopTrans.toDisconnected, RaopTrans.toAuthenticated, RaopTrans.toConnected] (by decide)

/-- Claim C9: every successfully constructed sink has its auto-null flag
equal to its auto-reconnect flag — `pa_raop_sink_new` sets
`u->autonull = u->autoreconnect` unconditionally, so auto-null cannot be
configured independently. -/
theorem c9_autonull_equals_autoreconnect (ma : ModArgs) (cfg : SinkConfig)
    (h : pa_raop_sink_new ma = some cfg) : cfg.autonull = cfg.autoreconnect := by
  unfold pa_raop_sink_new at h
  split at h
  · split at h
    · injection h with h
      subst h
      rfl
    · exact absurd h (by simp)
  · exact absurd h (by simp)

/-- Claim C9 witness: a concrete construction with autoreconnect=true
yields autonull = autoreconnect. -/
theorem c9_autonull_equals_autoreconnect_witness :
    (SinkConfig.mk "host" Protocol.udp Encryption.noEncryption Codec.pcm true true 200).autonull =
    (SinkConfig.mk "host" Protocol.udp Encryption.noEncryption Codec.pcm true true 200).autoreconnect :=
  c9_autonull_equals_autoreconnect
    ⟨some "host", some "UDP", none, none, some true, some 200⟩
    (SinkConfig.mk "host" Protocol.udp Encryption.noEncryption Codec.pcm true true 200)
    (by decide)

end RaopSink
